import Mathlib

/-!
# Verification of the passwordless-auth core of `project-next-hono-sqlite`

Shallow embedding of the backend's auth core
(`apps/backend/src/utils/auth.ts`, `apps/backend/src/routes/auth.ts`,
`apps/backend/src/routes/todos.ts`, and the two `jwtAuth` middleware
variants) together with proofs settling the frozen claims about it.

Modelling conventions:
* the D1/SQLite `otp`, `users` and `todos` tables are lists of rows in
  insertion (rowid) order;
* unix timestamps (`Date.now()/1000`, `CURRENT_TIMESTAMP`) are `Nat`
  seconds; the textual `created_at` column orders chronologically, so it
  is modelled by the `Nat` issuance instant;
* `Math.random()` is an oracle: the caller supplies the value
  `⌊r * 900000⌋ < 900000` that the float computation produces;
* the HMAC-SHA256 primitive used by `jose` is an oracle function
  `mac : String → Payload → Nat` supplied to the issuer and verifier (a
  signature is valid exactly when it equals `mac secret payload`), and
  the compact-serialization parser is an oracle `decode`.
-/

/-- A row of the `otp` table (`apps/backend/src/db/schema.ts`). -/
structure OtpRow where
  id : String
  userId : Option String
  email : String
  code : String
  expiresAt : Nat
  isUsed : Bool
  createdAt : Nat
  deriving Repr, DecidableEq

/-- Result shape of `verifyOTP`: `{ success: false, error }` or
`{ success: true, userId: record.userId || undefined }`. -/
inductive VerifyOutcome where
  | failure (error : String)
  | success (userId : Option String)
  deriving Repr, DecidableEq

/-- `true` exactly on the `{ success: false }` results. -/
def VerifyOutcome.isFailure : VerifyOutcome → Bool
  | .failure _ => true
  | .success _ => false

/-- The row returned by
`select().from(otp).where(eq(otp.email, email)).orderBy(otp.createdAt).limit(1)`
followed by `otpRecord[otpRecord.length - 1]`: among the rows for the
email, the one with the least `createdAt` (drizzle's bare `orderBy` is
ascending; `LIMIT 1` keeps only the first sorted row, and the index
`length - 1` of a one-element array is that same row).  Ties keep the
earlier-inserted row (stable sort over rowid scan order). -/
def minByCreatedAt : List OtpRow → Option OtpRow
  | [] => none
  | r :: rs =>
    match minByCreatedAt rs with
    | none => some r
    | some m => if r.createdAt ≤ m.createdAt then some r else some m

/-- The record `verifyOTP` considers for an email. -/
def consideredRecord (rows : List OtpRow) (email : String) : Option OtpRow :=
  minByCreatedAt (rows.filter (fun r => r.email == email))

/-- `db.update(otp).set({ isUsed: true }).where(eq(otp.id, record.id))`:
unconditionally sets `isUsed` on every row with the given id; the
affected-row count is discarded by the caller. -/
def markUsed (rows : List OtpRow) (id : String) : List OtpRow :=
  rows.map (fun r => if r.id = id then { r with isUsed := true } else r)

/-- `verifyOTP(db, email, code)` from `apps/backend/src/utils/auth.ts`
(lines 52–95), as a function of the ledger and the current time `now`
(seconds).  Returns the result together with the ledger after the call. -/
def verifyOTP (rows : List OtpRow) (email code : String) (now : Nat) :
    VerifyOutcome × List OtpRow :=
  match consideredRecord rows email with
  | none => (.failure "OTP not found", rows)
  | some record =>
    if record.code ≠ code then (.failure "Invalid OTP", rows)
    else if record.isUsed then (.failure "OTP already used", rows)
    else if record.expiresAt < now then (.failure "OTP expired", rows)
    else (.success record.userId, markUsed rows record.id)

/-- `generateOTP()`: `Math.floor(100000 + Math.random() * 900000).toString()`.
The oracle argument `k` is `⌊Math.random() * 900000⌋`, so the caller's
draw from `[0,1)` is summarized by `k < 900000`; the floor of the sum is
`100000 + k` because `100000` is an integer. -/
def generateOTP (k : Nat) : String :=
  Nat.repr (100000 + k)

/-- `createOTP(db, email, userId)` (lines 22–49): inserts one fresh row
with `isUsed := false`, `expiresAt := now + 10*60`, returns the plaintext
code.  `k` is the `Math.random()` draw for `generateOTP`, `otpId` the
generated UUID, `now` the issuance instant. -/
def createOTP (rows : List OtpRow) (email : String) (userId : Option String)
    (k : Nat) (otpId : String) (now : Nat) : String × List OtpRow :=
  let otpCode := generateOTP k
  (otpCode,
    rows ++ [{ id := otpId, userId := userId, email := email,
               code := otpCode, expiresAt := now + 10 * 60,
               isUsed := false, createdAt := now }])

/-!
## Read/commit decomposition of `verifyOTP`

`verifyOTP` performs two database round trips: the `select` (after which
every branch decision is fixed) and, on the success path only, the
unconditional `update`.  Modelling each round trip as an atomic step lets
interleavings of concurrent calls be stated exactly.
-/

/-- The read phase of `verifyOTP`: everything up to and including the
branch decisions taken on the fetched record.  `Sum.inl` is an
early-failure result; `Sum.inr` is the record the call will mark used. -/
def verifyRead (rows : List OtpRow) (email code : String) (now : Nat) :
    Sum String OtpRow :=
  match consideredRecord rows email with
  | none => .inl "OTP not found"
  | some record =>
    if record.code ≠ code then .inl "Invalid OTP"
    else if record.isUsed then .inl "OTP already used"
    else if record.expiresAt < now then .inl "OTP expired"
    else .inr record

/-- The commit phase: on an early failure nothing is written; otherwise
the unconditional `update` runs and the call reports success. -/
def verifyCommit (rows : List OtpRow) : Sum String OtpRow →
    VerifyOutcome × List OtpRow
  | .inl err => (.failure err, rows)
  | .inr record => (.success record.userId, markUsed rows record.id)

/-- Two concurrent `verifyOTP` calls for the same submission, scheduled
so that both `select`s run before either `update` (the racy
interleaving): each call decides from the initial ledger, then the
commits land in order.  Returns both outcomes and the final ledger. -/
def verifyTwoInterleaved (rows : List OtpRow) (email code : String)
    (now : Nat) : (VerifyOutcome × VerifyOutcome) × List OtpRow :=
  let ra := verifyRead rows email code now
  let rb := verifyRead rows email code now
  let (outA, rows1) := verifyCommit rows ra
  let (outB, rows2) := verifyCommit rows1 rb
  ((outA, outB), rows2)

/-! Sanity checks of the embedding on the spec's concrete scenario. -/

example :
    (verifyOTP [{ id := "o1", userId := none, email := "alice@example.com",
                  code := "482913", expiresAt := 600, isUsed := false,
                  createdAt := 0 }] "alice@example.com" "482913" 300).1
      = .success none := by decide

example :
    (verifyOTP [] "alice@example.com" "482913" 300).1
      = .failure "OTP not found" := by decide

/-!
## Identity store (`users` table, `getOrCreateUser`, `markEmailAsVerified`)
-/

/-- A row of the `users` table (fields this core reads or writes). -/
structure UserRow where
  id : String
  email : String
  emailVerified : Bool
  name : Option String
  provider : String
  deriving Repr, DecidableEq

/-- `getOrCreateUser(db, email, name?)` (utils/auth.ts lines 134–165):
`select … where(eq(users.email, email)).limit(1)` — an exact, byte-wise
(SQLite BINARY collation) comparison on the stored email — then either
the found id, or an insert of `{ id: uuid, email, name: name || null,
emailVerified: false, provider: 'email' }`.  `uuid` is the generated
UUID oracle; `name || null` maps the empty string to null. -/
def getOrCreateUser (rows : List UserRow) (email : String)
    (name : Option String) (uuid : String) : String × List UserRow :=
  match (rows.filter (fun u => u.email == email)).head? with
  | some u => (u.id, rows)
  | none =>
    (uuid,
      rows ++ [{ id := uuid, email := email,
                 emailVerified := false,
                 name := if name = some "" then none else name,
                 provider := "email" }])

/-- `markEmailAsVerified(db, userId)` (lines 168–177). -/
def markEmailAsVerified (rows : List UserRow) (userId : String) :
    List UserRow :=
  rows.map (fun u => if u.id = userId then { u with emailVerified := true }
                     else u)

/-!
## Owned todos (`apps/backend/src/routes/todos.ts`)

The `todos` table (with the `user_id` column added by migration
`0008_parallel_silhouette.sql`) and the four mutating handlers: the
authenticated `PUT`/`DELETE /api/todos/my-todos/{id}` pair and the legacy
`PUT`/`DELETE /api/todos/{id}` pair.
-/

/-- A row of the `todos` table. -/
structure TodoRow where
  id : Nat
  task : String
  isDone : Bool
  userId : String
  updatedAt : String
  deriving Repr, DecidableEq

/-- The `UpdateTodoSchema` body: both fields optional. -/
structure UpdateTodoData where
  task : Option String
  isDone : Option Bool
  deriving Repr, DecidableEq

/-- `{ ...data, updatedAt: new Date().toISOString() }` applied to a row:
present fields override, `updatedAt` is stamped with the handler's
current time string. -/
def applyUpdate (r : TodoRow) (data : UpdateTodoData) (nowIso : String) :
    TodoRow :=
  { r with task := data.task.getD r.task,
           isDone := data.isDone.getD r.isDone,
           updatedAt := nowIso }

/-- `select().from(todos).where(eq(todos.id, id)).get()`: the first row
with the given id. -/
def findTodo (rows : List TodoRow) (id : Nat) : Option TodoRow :=
  (rows.filter (fun r => r.id == id)).head?

/-- Observable outcome of a todo mutation handler.  `notFound` renders as
404 `{error:'Todo not found'}`, `forbidden` as 403 `{error:'Unauthorized'}`,
`updated`/`deleted` as the 200 bodies. -/
inductive TodoOutcome where
  | notFound
  | forbidden
  | updated (todo : TodoRow)
  | deleted
  deriving Repr, DecidableEq

/-- The HTTP status each outcome is returned with. -/
def TodoOutcome.status : TodoOutcome → Nat
  | .notFound => 404
  | .forbidden => 403
  | .updated _ => 200
  | .deleted => 200

/-- Handler of `updateUserTodoRoute` (`PUT /api/todos/my-todos/{id}`,
todos.ts lines 366–398): fetch by id; 404 if absent; 403 if
`existing.userId !== userId`; otherwise update every row with that id
and return the updated row. -/
def updateUserTodo (rows : List TodoRow) (userId : String) (id : Nat)
    (data : UpdateTodoData) (nowIso : String) : TodoOutcome × List TodoRow :=
  match findTodo rows id with
  | none => (.notFound, rows)
  | some existing =>
    if existing.userId ≠ userId then (.forbidden, rows)
    else (.updated (applyUpdate existing data nowIso),
          rows.map (fun r => if r.id = id then applyUpdate r data nowIso
                             else r))

/-- Handler of `deleteUserTodoRoute` (`DELETE /api/todos/my-todos/{id}`,
lines 513–537): fetch by id; 404 if absent; 403 if not owned; otherwise
delete every row with that id. -/
def deleteUserTodo (rows : List TodoRow) (userId : String) (id : Nat) :
    TodoOutcome × List TodoRow :=
  match findTodo rows id with
  | none => (.notFound, rows)
  | some existing =>
    if existing.userId ≠ userId then (.forbidden, rows)
    else (.deleted, rows.filter (fun r => r.id ≠ id))

/-- Handler of the legacy `updateRoute` (`PUT /api/todos/{id}`, lines
443–462): registered without `jwtAuth` and with no ownership comparison —
any caller updates any existing todo. -/
def updateTodoLegacy (rows : List TodoRow) (id : Nat)
    (data : UpdateTodoData) (nowIso : String) : TodoOutcome × List TodoRow :=
  match findTodo rows id with
  | none => (.notFound, rows)
  | some existing =>
    (.updated (applyUpdate existing data nowIso),
     rows.map (fun r => if r.id = id then applyUpdate r data nowIso else r))

/-- Handler of the legacy `deleteRoute` (`DELETE /api/todos/{id}`, lines
570–586): registered without `jwtAuth` and with no ownership comparison —
any caller deletes any existing todo. -/
def deleteTodoLegacy (rows : List TodoRow) (id : Nat) :
    TodoOutcome × List TodoRow :=
  match findTodo rows id with
  | none => (.notFound, rows)
  | some _ => (.deleted, rows.filter (fun r => r.id ≠ id))

/-!
## Stateless session tokens (`generateJWT`, `verifyJWT`)

A token is its claim set plus a signature.  The HMAC-SHA256 computed by
`jose` over the protected header and payload is the oracle
`mac : String → Payload → Nat`; a signature verifies exactly when it
equals `mac secret payload`.  The claims `generateJWT` writes, plus the
`email`/`name` claims the `hono/factory` middleware reads, are modelled;
absent claims are `none`.
-/

/-- JWT claim set. `sub`/`type`/`email`/`name` may be absent in foreign
tokens; `exp` is the absolute expiry in seconds. -/
structure Payload where
  sub : Option String
  type : Option String
  iat : Nat
  exp : Nat
  email : Option String
  name : Option String
  deriving Repr, DecidableEq

/-- A signed token: claims plus signature. -/
structure Token where
  payload : Payload
  sig : Nat
  deriving Repr, DecidableEq

/-- A token correctly signed with `secret` over the given claims. -/
def signToken (mac : String → Payload → Nat) (secret : String)
    (p : Payload) : Token :=
  { payload := p, sig := mac secret p }

/-- `generateJWT(userId, secret)` (utils/auth.ts lines 98–109):
`new SignJWT({ sub: userId, type: 'access' }).setProtectedHeader({alg:'HS256'})
.setIssuedAt().setExpirationTime('24h')` signed with the secret. -/
def generateJWT (mac : String → Payload → Nat) (userId secret : String)
    (now : Nat) : Token :=
  signToken mac secret
    { sub := some userId, type := some "access", iat := now,
      exp := now + 24 * 60 * 60, email := none, name := none }

/-- Result shape of `verifyJWT`: `{ userId }`, or `{ userId: null }` with
one of the two error strings. -/
inductive VerifyJWTResult where
  | ok (userId : String)
  | invalidToken
  | verificationFailed
  deriving Repr, DecidableEq

/-- The `userId` field of a `verifyJWT` result (`null` on failure). -/
def VerifyJWTResult.userId : VerifyJWTResult → Option String
  | .ok u => some u
  | _ => none

/-- The `error` field of a `verifyJWT` result. -/
def VerifyJWTResult.error : VerifyJWTResult → Option String
  | .ok _ => none
  | .invalidToken => some "Invalid token"
  | .verificationFailed => some "Token verification failed"

/-- `verifyJWT(token, secret)` (lines 112–131) on an already-parsed
token.  `jwtVerify` throws on a bad signature or on `exp ≤ now`; the
`catch` turns any throw into `'Token verification failed'`.  Otherwise
`if (!userId)` rejects an absent or empty `sub` with `'Invalid token'`,
and no other claim (in particular not `type`) is inspected. -/
def verifyJWTTok (mac : String → Payload → Nat) (tok : Token)
    (secret : String) (now : Nat) : VerifyJWTResult :=
  if tok.sig = mac secret tok.payload ∧ now < tok.payload.exp then
    match tok.payload.sub with
    | none => .invalidToken
    | some s => if s = "" then .invalidToken else .ok s
  else .verificationFailed

/-- `verifyJWT` on the wire string: the compact-serialization parse is
the oracle `decode`; a string `jwtVerify` cannot parse throws and lands
in the same `catch`. -/
def verifyJWT (mac : String → Payload → Nat)
    (decode : String → Option Token) (token secret : String) (now : Nat) :
    VerifyJWTResult :=
  match decode token with
  | none => .verificationFailed
  | some tok => verifyJWTTok mac tok secret now

/-!
## Request-gating middleware (the two `jwtAuth` variants)
-/

/-- JS `s.split(' ')` on the character list: splitting on every single
space, keeping empty groups, `"" → [""]`.  (Lean's own `String.splitOn`
has the same behaviour for this separator but is not kernel-reducible,
so the executable equivalent is defined structurally here.) -/
def jsSplitOnSpace : List Char → List (List Char)
  | [] => [[]]
  | c :: cs =>
    match jsSplitOnSpace cs with
    | [] => [[]]
    | g :: gs => if c = ' ' then [] :: g :: gs else (c :: g) :: gs

/-- `authHeader.split(' ')`. -/
def jsSplit (s : String) : List String :=
  (jsSplitOnSpace s.data).map String.mk

/-- Observable outcome of the middleware: either the handler runs with
the request-scoped identity, or the request is short-circuited with a
status and error body. -/
inductive AuthOutcome where
  | proceed (userId : String)
  | reject (status : Nat) (error : String)
  deriving Repr, DecidableEq

/-- `jwtAuth` from `middleware/auth.ts` (src/unnamed/part_013, lines
9–40): missing header → 401; `authHeader.split(' ')` must be exactly
`['Bearer', token]` → otherwise 401; then `verifyJWT`, rejecting with
its error message when `userId` is null, else `c.set('userId', …)` and
`next()`. -/
def jwtAuth (mac : String → Payload → Nat)
    (decode : String → Option Token) (secret : String)
    (header : Option String) (now : Nat) : AuthOutcome :=
  match header with
  | none => .reject 401 "Missing authorization header"
  | some h =>
    match jsSplit h with
    | [w, token] =>
      if w = "Bearer" then
        match verifyJWT mac decode token secret now with
        | .ok userId => .proceed userId
        | .invalidToken => .reject 401 "Invalid token"
        | .verificationFailed => .reject 401 "Token verification failed"
      else .reject 401 "Invalid authorization header format"
    | _ => .reject 401 "Invalid authorization header format"

/-- Outcome of the `hono/factory` middleware, which also stores a `user`
object `{ id, email, name }` read from the payload. -/
inductive AuthOutcomeJose where
  | proceed (userId : String) (email : Option String) (name : Option String)
  | reject (status : Nat) (error : String)
  deriving Repr, DecidableEq

/-- `jwtAuth` from the `hono/factory` middleware (src/unnamed/part_014,
lines 14–51): header must exist and start with `'Bearer '`; the token is
`substring(7)`; `jwtVerify(token, secret, { algorithms: ['HS256'] })`
throws → 401 `'Unauthorized - Invalid token'`; absent/empty `sub` → 401
`'Unauthorized - Invalid token payload'`; otherwise the identity and the
payload's `email`/`name` are stored and `next()` runs.  The `type` claim
is never read. -/
def jwtAuthJose (mac : String → Payload → Nat)
    (decode : String → Option Token) (secret : String)
    (header : Option String) (now : Nat) : AuthOutcomeJose :=
  match header with
  | none =>
    .reject 401 "Unauthorized - Missing or invalid authorization header"
  | some h =>
    if "Bearer ".data.isPrefixOf h.data then
      match decode (String.mk (h.data.drop 7)) with
      | none => .reject 401 "Unauthorized - Invalid token"
      | some tok =>
        if tok.sig = mac secret tok.payload ∧ now < tok.payload.exp then
          match tok.payload.sub with
          | none => .reject 401 "Unauthorized - Invalid token payload"
          | some s =>
            if s = "" then .reject 401 "Unauthorized - Invalid token payload"
            else .proceed s tok.payload.email tok.payload.name
        else .reject 401 "Unauthorized - Invalid token"
    else .reject 401 "Unauthorized - Missing or invalid authorization header"

/-!
## `POST /api/auth/verify-otp` (`apps/backend/src/routes/auth.ts`, 49–108)
-/

/-- Database state the endpoint touches. -/
structure Db where
  otps : List OtpRow
  users : List UserRow
  deriving Repr, DecidableEq

/-- Observable response of the verify-otp endpoint: status plus body
(`{success:false, message}` or `{success:true, token, user:{…}}`). -/
inductive VerifyOtpResponse where
  | failureResp (status : Nat) (message : String)
  | okResp (token : Token) (id : String) (email : String)
           (emailVerified : Bool) (name : Option String)
  deriving Repr, DecidableEq

/-- The handler body after zod validation: `verifyOTP`; on
`!otpResult.success` return 400 with
`message: otpResult.error || 'Failed to verify OTP'`; otherwise
`getOrCreateUser`, `markEmailAsVerified`, `generateJWT`, re-select the
user row (`userRecords[0]` — an absent row throws into the `catch`,
which answers 400 `'Failed to verify OTP'`), and answer 200 with the
token and user fields.  `uuid` is the UUID oracle for a fresh user. -/
def verifyOtpHandler (mac : String → Payload → Nat) (db : Db)
    (email code : String) (now : Nat) (uuid secret : String) :
    VerifyOtpResponse × Db :=
  let (otpResult, otps1) := verifyOTP db.otps email code now
  match otpResult with
  | .failure err =>
    (.failureResp 400 (if err = "" then "Failed to verify OTP" else err),
     { db with otps := otps1 })
  | .success _ =>
    let (userId, users1) := getOrCreateUser db.users email none uuid
    let users2 := markEmailAsVerified users1 userId
    let token := generateJWT mac userId secret now
    match (users2.filter (fun u => u.id == userId)).head? with
    | none => (.failureResp 400 "Failed to verify OTP",
               { otps := otps1, users := users2 })
    | some u => (.okResp token u.id u.email u.emailVerified u.name,
                 { otps := otps1, users := users2 })

/-- A concrete claim set, as minted for user `"u1"` at `iat = 0` with a
24h-shaped expiry window shortened to `100` for concrete evaluations. -/
def samplePayload : Payload :=
  { sub := some "u1", type := some "access", iat := 0, exp := 100,
    email := none, name := none }

/-- A concrete token whose signature (`3`) does not match the sample
verifier oracle `fun _ _ => 7`. -/
def sampleBadToken : Token :=
  { payload := samplePayload, sig := 3 }

/-- A concrete parse oracle: only the wire string `"tkn"` parses, to
`sampleBadToken`. -/
def sampleDecode : String → Option Token :=
  fun s => if s = "tkn" then some sampleBadToken else none

/-!
## Helper lemmas
-/

theorem minByCreatedAt_eq_none_iff (l : List OtpRow) :
    minByCreatedAt l = none ↔ l = [] := by
  cases l with
  | nil => simp [minByCreatedAt]
  | cons r rs =>
    simp only [minByCreatedAt]
    cases h : minByCreatedAt rs with
    | none => simp
    | some m =>
      split <;> try simp
      split <;> simp

theorem minByCreatedAt_mem {l : List OtpRow} {r : OtpRow}
    (h : minByCreatedAt l = some r) : r ∈ l := by
  induction l with
  | nil => simp [minByCreatedAt] at h
  | cons a as ih =>
    simp only [minByCreatedAt] at h
    cases hm : minByCreatedAt as with
    | none =>
      simp only [hm, Option.some.injEq] at h
      subst h
      exact List.mem_cons_self _ _
    | some m =>
      simp only [hm] at h
      split at h <;> simp only [Option.some.injEq] at h <;> subst h
      · exact List.mem_cons_self _ _
      · exact List.mem_cons_of_mem _ (ih hm)

/-- If no ledger row carries the email, the select comes back empty. -/
theorem consideredRecord_eq_none (rows : List OtpRow) (email : String)
    (h : ∀ r ∈ rows, r.email ≠ email) :
    consideredRecord rows email = none := by
  unfold consideredRecord
  rw [minByCreatedAt_eq_none_iff, List.filter_eq_nil_iff]
  intro r hr
  simpa using h r hr

/-- The considered record belongs to the ledger and carries the email. -/
theorem consideredRecord_mem {rows : List OtpRow} {email : String}
    {rec : OtpRow} (h : consideredRecord rows email = some rec) :
    rec ∈ rows ∧ rec.email = email := by
  have hmem := minByCreatedAt_mem h
  have := List.mem_filter.mp hmem
  exact ⟨this.1, by simpa using this.2⟩

theorem jsSplitOnSpace_ne_nil (cs : List Char) : jsSplitOnSpace cs ≠ [] := by
  cases cs with
  | nil => simp [jsSplitOnSpace]
  | cons c cs =>
    simp only [jsSplitOnSpace]
    cases h : jsSplitOnSpace cs with
    | nil => simp
    | cons g gs =>
      split
      · simp
      · split <;> simp

theorem jsSplitOnSpace_single {cs g : List Char}
    (h : jsSplitOnSpace cs = [g]) : cs = g := by
  induction cs generalizing g with
  | nil =>
    simp only [jsSplitOnSpace] at h
    cases h
    rfl
  | cons c cs ih =>
    simp only [jsSplitOnSpace] at h
    cases hr : jsSplitOnSpace cs with
    | nil => exact absurd hr (jsSplitOnSpace_ne_nil cs)
    | cons g' gs =>
      simp only [hr] at h
      split at h
      · simp at h
      · simp only [List.cons.injEq] at h
        obtain ⟨h1, h2⟩ := h
        subst h2
        rw [ih hr, h1]

theorem jsSplitOnSpace_pair {cs g1 g2 : List Char}
    (h : jsSplitOnSpace cs = [g1, g2]) : cs = g1 ++ ' ' :: g2 := by
  induction cs generalizing g1 with
  | nil => simp [jsSplitOnSpace] at h
  | cons c cs ih =>
    simp only [jsSplitOnSpace] at h
    cases hr : jsSplitOnSpace cs with
    | nil => exact absurd hr (jsSplitOnSpace_ne_nil cs)
    | cons g' gs =>
      simp only [hr] at h
      split at h
      next hc =>
        simp only [List.cons.injEq] at h
        obtain ⟨h1, h2, h3⟩ := h
        subst h1
        subst h3
        have hr2 : jsSplitOnSpace cs = [g2] := by rw [hr, h2]
        subst hc
        simp [jsSplitOnSpace_single hr2]
      next hc =>
        simp only [List.cons.injEq] at h
        obtain ⟨h1, h2⟩ := h
        subst h1
        have hr2 : jsSplitOnSpace cs = [g', g2] := by rw [hr, h2]
        rw [List.cons_append, ih hr2]

theorem jsSplit_two {h w tok : String} (hs : jsSplit h = [w, tok]) :
    h.data = w.data ++ ' ' :: tok.data := by
  unfold jsSplit at hs
  cases hg : jsSplitOnSpace h.data with
  | nil => exact absurd hg (jsSplitOnSpace_ne_nil _)
  | cons g1 gs =>
    rw [hg] at hs
    cases gs with
    | nil => simp at hs
    | cons g2 gs2 =>
      cases gs2 with
      | cons g3 gs3 => simp at hs
      | nil =>
        simp only [List.map_cons, List.map_nil, List.cons.injEq,
          and_true] at hs
        obtain ⟨h1, h2⟩ := hs
        have e1 : g1 = w.data := congrArg String.data h1
        have e2 : g2 = tok.data := congrArg String.data h2
        rw [← e1, ← e2]
        exact jsSplitOnSpace_pair hg

/-- A header that splits as `['Bearer', token]` starts with the
`"Bearer "` prefix. -/
theorem jsSplit_bearer_starts {h tok : String}
    (hs : jsSplit h = ["Bearer", tok]) :
    "Bearer ".data.isPrefixOf h.data = true := by
  rw [List.isPrefixOf_iff_prefix, jsSplit_two hs]
  have e : "Bearer ".data = "Bearer".data ++ [' '] := by decide
  have e2 : "Bearer".data ++ ' ' :: tok.data
      = ("Bearer".data ++ [' ']) ++ tok.data := by simp
  rw [e, e2]
  exact List.prefix_append _ _

/-- `verifyOTP` is the read phase followed by the commit phase: nothing
between the `select` and the `update` re-reads the database. -/
theorem verifyOTP_eq_commit_read (rows : List OtpRow) (email code : String)
    (now : Nat) :
    verifyOTP rows email code now
      = verifyCommit rows (verifyRead rows email code now) := by
  unfold verifyOTP verifyRead
  cases consideredRecord rows email with
  | none => rfl
  | some rec =>
    by_cases hc : rec.code ≠ code
    · simp [hc, verifyCommit]
    · by_cases hu : rec.isUsed <;> by_cases he : rec.expiresAt < now <;>
        simp [hc, hu, he, verifyCommit]

/-!
## Claims
-/

/-- C1: the claim asserts a conditional (CAS) update and at-most-once
consumption under concurrency.  The code's `update` is unconditional
(`set({isUsed:true}).where(eq(otp.id, record.id))`, affected-row count
never read), so whenever the read phase of a call decides success, the
call reports success no matter what committed in between: under the
interleaving in which both `select`s run before either `update`, two
concurrent `verify` calls with the correct code both return success —
refuting "exactly one success and N−1 `AlreadyUsed` failures". -/
theorem verify_concurrent_both_succeed (rows : List OtpRow)
    (email code : String) (now : Nat) (rec : OtpRow)
    (h : verifyRead rows email code now = .inr rec) :
    (verifyTwoInterleaved rows email code now).1
      = (.success rec.userId, .success rec.userId) := by
  simp [verifyTwoInterleaved, h, verifyCommit]

/-- Witness for C1's theorem: a fresh, unexpired, correct code consumed
by two interleaved `verify` calls — both succeed. -/
theorem verify_concurrent_both_succeed_witness :
    (verifyTwoInterleaved
      [{ id := "o1", userId := some "u1", email := "alice@example.com",
         code := "482913", expiresAt := 900, isUsed := false,
         createdAt := 0 }] "alice@example.com" "482913" 100).1
      = (.success (some "u1"), .success (some "u1")) :=
  verify_concurrent_both_succeed _ _ _ _
    { id := "o1", userId := some "u1", email := "alice@example.com",
      code := "482913", expiresAt := 900, isUsed := false, createdAt := 0 }
    (by decide)

/-- C2: the claim (and the code's own comment `// Get the latest OTP`)
says the most recently created row is considered, but
`orderBy(otp.createdAt)` is ascending and `limit(1)` keeps the first
sorted row, so the *oldest* row is considered: with an older code
`"111111"` and a newer one `"222222"` outstanding, submitting the newer
code fails with `Invalid OTP` while the older one succeeds. -/
theorem verify_considers_oldest_code :
    let older : OtpRow :=
      { id := "o1", userId := none, email := "bob@example.com",
        code := "111111", expiresAt := 1300, isUsed := false,
        createdAt := 100 }
    let newer : OtpRow :=
      { id := "o2", userId := none, email := "bob@example.com",
        code := "222222", expiresAt := 1400, isUsed := false,
        createdAt := 200 }
    consideredRecord [older, newer] "bob@example.com" = some older ∧
    (verifyOTP [older, newer] "bob@example.com" "222222" 250).1
      = .failure "Invalid OTP" ∧
    (verifyOTP [older, newer] "bob@example.com" "111111" 250).1
      = .success none := by
  decide

/-- C3: single-execution failure taxonomy of `verifyOTP`, in the order
the code checks: no row for the email → `OTP not found` (`NotFound`);
else, on the considered record, wrong code → `Invalid OTP` (`Mismatch`);
else already used → `OTP already used` (`AlreadyUsed`); else past expiry
→ `OTP expired` (`Expired`, even though the record is otherwise correct
and unused); and on every failure the ledger is returned unmutated. -/
theorem verify_failure_taxonomy (rows : List OtpRow) (email code : String)
    (now : Nat) :
    ((∀ r ∈ rows, r.email ≠ email) →
      verifyOTP rows email code now = (.failure "OTP not found", rows)) ∧
    (∀ rec, consideredRecord rows email = some rec →
      (rec.code ≠ code →
        verifyOTP rows email code now = (.failure "Invalid OTP", rows)) ∧
      (rec.code = code → rec.isUsed = true →
        verifyOTP rows email code now
          = (.failure "OTP already used", rows)) ∧
      (rec.code = code → rec.isUsed = false → rec.expiresAt < now →
        verifyOTP rows email code now = (.failure "OTP expired", rows))) ∧
    ((verifyOTP rows email code now).1.isFailure = true →
      (verifyOTP rows email code now).2 = rows) := by
  refine ⟨fun h => ?_, fun rec hrec => ⟨fun hc => ?_, fun hc hu => ?_,
    fun hc hu he => ?_⟩, ?_⟩
  · unfold verifyOTP
    rw [consideredRecord_eq_none rows email h]
  · unfold verifyOTP
    rw [hrec]
    simp [hc]
  · unfold verifyOTP
    rw [hrec]
    simp [hc, hu]
  · unfold verifyOTP
    rw [hrec]
    simp [hc, hu, he]
  · unfold verifyOTP
    cases h : consideredRecord rows email with
    | none => simp
    | some rec =>
      by_cases hc : rec.code ≠ code
      · simp [hc]
      · by_cases hu : rec.isUsed <;> by_cases he : rec.expiresAt < now <;>
          simp [hc, hu, he, VerifyOutcome.isFailure]

/-- Witness for C3's theorem: a correct, unused code verified past its
expiry fails with `OTP expired` and leaves the ledger unchanged. -/
theorem verify_failure_taxonomy_witness :
    verifyOTP
      [{ id := "o1", userId := some "u1", email := "alice@example.com",
         code := "482913", expiresAt := 900, isUsed := false,
         createdAt := 0 }] "alice@example.com" "482913" 1000
      = (.failure "OTP expired",
         [{ id := "o1", userId := some "u1", email := "alice@example.com",
            code := "482913", expiresAt := 900, isUsed := false,
            createdAt := 0 }]) :=
  ((verify_failure_taxonomy _ "alice@example.com" "482913" 1000).2.1
      { id := "o1", userId := some "u1", email := "alice@example.com",
        code := "482913", expiresAt := 900, isUsed := false,
        createdAt := 0 }
      (by decide)).2.2 (by decide) (by decide) (by decide)

/-- C4 counterexample: the claim quantifies over every exposed update or
delete on an owned resource and cites the legacy `DELETE /api/todos/{id}`
handler, but that handler (registered without `jwtAuth` and with no
ownership comparison) deletes a todo owned by `"alice"` for any caller —
for the identity `"bob"` the claim demands a denial with the resource
unchanged, yet the row is removed. -/
theorem legacy_delete_ignores_ownership_cex :
    "bob" ≠ "alice" ∧
    deleteTodoLegacy
      [{ id := 1, task := "buy milk", isDone := false, userId := "alice",
         updatedAt := "t0" }] 1
      = (.deleted, []) := by
  constructor
  · decide
  · rfl

/-- C4 amended: ownership gating holds exactly on the authenticated
`/api/todos/my-todos/{id}` handlers — nonexistent id → 404 `notFound`,
existing but foreign-owned → the distinct 403 `forbidden` with the table
unchanged, owner → the mutation proceeds — while the legacy
`/api/todos/{id}` update and delete handlers mutate any existing todo
with no ownership comparison at all. -/
theorem todo_mutation_ownership (rows : List TodoRow) (userId : String)
    (id : Nat) (data : UpdateTodoData) (nowIso : String) :
    (findTodo rows id = none →
      updateUserTodo rows userId id data nowIso = (.notFound, rows) ∧
      deleteUserTodo rows userId id = (.notFound, rows)) ∧
    (∀ ex, findTodo rows id = some ex → ex.userId ≠ userId →
      updateUserTodo rows userId id data nowIso = (.forbidden, rows) ∧
      deleteUserTodo rows userId id = (.forbidden, rows)) ∧
    (∀ ex, findTodo rows id = some ex → ex.userId = userId →
      updateUserTodo rows userId id data nowIso
        = (.updated (applyUpdate ex data nowIso),
           rows.map (fun r => if r.id = id then applyUpdate r data nowIso
                              else r)) ∧
      deleteUserTodo rows userId id
        = (.deleted, rows.filter (fun r => r.id ≠ id))) ∧
    (∀ ex, findTodo rows id = some ex →
      updateTodoLegacy rows id data nowIso
        = (.updated (applyUpdate ex data nowIso),
           rows.map (fun r => if r.id = id then applyUpdate r data nowIso
                              else r)) ∧
      deleteTodoLegacy rows id = (.deleted, rows.filter (fun r => r.id ≠ id))) ∧
    TodoOutcome.notFound.status = 404 ∧ TodoOutcome.forbidden.status = 403 := by
  refine ⟨fun h => ?_, fun ex hex hown => ?_, fun ex hex hown => ?_,
    fun ex hex => ?_, rfl, rfl⟩
  · simp [updateUserTodo, deleteUserTodo, h]
  · simp [updateUserTodo, deleteUserTodo, hex, hown]
  · simp [updateUserTodo, deleteUserTodo, hex, hown]
  · simp [updateTodoLegacy, deleteTodoLegacy, hex]

/-- Witness for C4's amended theorem: a todo owned by `"alice"`,
addressed by the authenticated handlers with identity `"bob"`, yields the
403 `forbidden` outcome for both update and delete with the table
unchanged. -/
theorem todo_mutation_ownership_witness :
    updateUserTodo
      [{ id := 1, task := "buy milk", isDone := false, userId := "alice",
         updatedAt := "t0" }] "bob" 1
      { task := none, isDone := some true } "t1"
      = (.forbidden,
         [{ id := 1, task := "buy milk", isDone := false, userId := "alice",
            updatedAt := "t0" }]) ∧
    deleteUserTodo
      [{ id := 1, task := "buy milk", isDone := false, userId := "alice",
         updatedAt := "t0" }] "bob" 1
      = (.forbidden,
         [{ id := 1, task := "buy milk", isDone := false, userId := "alice",
            updatedAt := "t0" }]) :=
  (todo_mutation_ownership _ "bob" 1 { task := none, isDone := some true }
      "t1").2.1
    { id := 1, task := "buy milk", isDone := false, userId := "alice",
      updatedAt := "t0" }
    (by decide) (by decide)

/-- C5 counterexample: the claim quantifies over every `userId`, but a
token minted for the empty `userId` is rejected by `verifyJWT` even
though it is correctly signed and checked well inside 24 hours —
`if (!userId)` treats the empty subject as missing, so the result's
`userId` is `null`, not the minted `U = ""`. -/
theorem jwt_empty_userId_not_roundtrip_cex :
    (verifyJWTTok (fun s p => s.length + p.exp)
        (generateJWT (fun s p => s.length + p.exp) "" "server-secret" 0)
        "server-secret" 60).userId = none := by
  decide

/-- C6: the request gate is fail-closed and uniform.  (1) A missing
header and (2) a header not starting with `"Bearer "` are rejected 401 as
malformed before any token work; (3) a handler only ever runs on a
well-formed `Bearer` header whose token fully verifies (fail-closed
inversion); (4) on a well-formed header, an unparseable token, a bad
signature and an expired token all map to the single undifferentiated
401 `Token verification failed` outcome, and a verified token with an
absent or empty `sub` is likewise 401-rejected (`Invalid token`). -/
theorem middleware_fail_closed (mac : String → Payload → Nat)
    (decode : String → Option Token) (secret : String)
    (header : Option String) (now : Nat) :
    (header = none →
      jwtAuth mac decode secret header now
        = .reject 401 "Missing authorization header") ∧
    (∀ h, header = some h → "Bearer ".data.isPrefixOf h.data = false →
      jwtAuth mac decode secret header now
        = .reject 401 "Invalid authorization header format") ∧
    (∀ u, jwtAuth mac decode secret header now = .proceed u →
      ∃ h tok, header = some h ∧ jsSplit h = ["Bearer", tok] ∧
        verifyJWT mac decode tok secret now = .ok u) ∧
    (∀ h tok, header = some h → jsSplit h = ["Bearer", tok] →
      (decode tok = none →
        jwtAuth mac decode secret header now
          = .reject 401 "Token verification failed") ∧
      (∀ t, decode tok = some t → t.sig ≠ mac secret t.payload →
        jwtAuth mac decode secret header now
          = .reject 401 "Token verification failed") ∧
      (∀ t, decode tok = some t → t.payload.exp ≤ now →
        jwtAuth mac decode secret header now
          = .reject 401 "Token verification failed") ∧
      (∀ t, decode tok = some t → t.sig = mac secret t.payload →
        now < t.payload.exp →
        t.payload.sub = none ∨ t.payload.sub = some "" →
        jwtAuth mac decode secret header now
          = .reject 401 "Invalid token")) := by
  refine ⟨fun hh => by subst hh; rfl, fun h hh hpre => ?_, fun u hu => ?_,
    fun h tok hh hs => ?_⟩
  · subst hh
    rcases hsp : jsSplit h with _ | ⟨w, _ | ⟨t2, _ | _⟩⟩ <;>
      simp only [jwtAuth, hsp]
    by_cases hw : w = "Bearer"
    · subst hw
      exact absurd (jsSplit_bearer_starts hsp) (by simp [hpre])
    · simp [hw]
  · cases header with
    | none => simp [jwtAuth] at hu
    | some h =>
      rcases hsp : jsSplit h with _ | ⟨w, _ | ⟨t2, _ | _⟩⟩ <;>
        simp only [jwtAuth, hsp] at hu <;> try cases hu
      split at hu
      next hw =>
        subst hw
        cases hv : verifyJWT mac decode t2 secret now <;>
          simp only [hv] at hu <;> cases hu
        exact ⟨h, t2, rfl, hsp, hv⟩
      next => cases hu
  · subst hh
    refine ⟨fun hd => ?_, fun t hd hsig => ?_, fun t hd hexp => ?_,
      fun t hd hsig hexp hsub => ?_⟩
    · simp [jwtAuth, hs, verifyJWT, hd]
    · simp [jwtAuth, hs, verifyJWT, hd, verifyJWTTok, hsig]
    · have hnl : ¬ now < t.payload.exp := Nat.not_lt.mpr hexp
      simp [jwtAuth, hs, verifyJWT, hd, verifyJWTTok, hnl]
    · rcases hsub with h1 | h1 <;>
        simp [jwtAuth, hs, verifyJWT, hd, verifyJWTTok, hsig, hexp, h1]

/-- Witness for C6's theorem: a well-formed `Bearer` header whose token
parses but carries a wrong signature is rejected 401 with the
undifferentiated message. -/
theorem middleware_fail_closed_witness :
    jwtAuth (fun _ _ => 7) sampleDecode "server-secret"
      (some "Bearer tkn") 5
      = .reject 401 "Token verification failed" :=
  ((middleware_fail_closed (fun _ _ => 7) sampleDecode "server-secret"
      (some "Bearer tkn") 5).2.2.2 "Bearer tkn" "tkn" rfl
      (by decide)).2.1 sampleBadToken (by decide) (by decide)

/-- C5 amended: for every *nonempty* `userId` and every secret, a token
minted by `generateJWT` verifies under the same secret at any instant
strictly before issuance + 24h and yields that `userId`; replacing the
signature by any other value is always rejected, as is any check at or
after issuance + 24h. -/
theorem jwt_roundtrip (mac : String → Payload → Nat) (u secret : String)
    (now t : Nat) :
    (u ≠ "" → t < now + 24 * 60 * 60 →
      verifyJWTTok mac (generateJWT mac u secret now) secret t = .ok u) ∧
    (∀ sig', sig' ≠ (generateJWT mac u secret now).sig →
      verifyJWTTok mac
        { payload := (generateJWT mac u secret now).payload, sig := sig' }
        secret t = .verificationFailed) ∧
    (now + 24 * 60 * 60 ≤ t →
      verifyJWTTok mac (generateJWT mac u secret now) secret t
        = .verificationFailed) := by
  refine ⟨fun hu ht => ?_, fun sig' hs => ?_, fun ht => ?_⟩
  · simp [verifyJWTTok, generateJWT, signToken, ht, hu]
  · simp only [verifyJWTTok, generateJWT, signToken] at hs ⊢
    simp [hs]
  · simp [verifyJWTTok, generateJWT, signToken, Nat.not_lt.mpr ht]

/-- Witness for C5's amended theorem: the round trip, a tampered
signature, and a post-expiry check, at concrete values. -/
theorem jwt_roundtrip_witness :
    verifyJWTTok (fun s p => s.length + p.exp)
        (generateJWT (fun s p => s.length + p.exp) "u1" "server-secret" 0)
        "server-secret" 60
      = .ok "u1" ∧
    verifyJWTTok (fun s p => s.length + p.exp)
        { payload := (generateJWT (fun s p => s.length + p.exp) "u1"
            "server-secret" 0).payload, sig := 5 }
        "server-secret" 60
      = .verificationFailed ∧
    verifyJWTTok (fun s p => s.length + p.exp)
        (generateJWT (fun s p => s.length + p.exp) "u1" "server-secret" 0)
        "server-secret" 86400
      = .verificationFailed :=
  ⟨(jwt_roundtrip (fun s p => s.length + p.exp) "u1" "server-secret" 0
      60).1 (by decide) (by decide),
   (jwt_roundtrip (fun s p => s.length + p.exp) "u1" "server-secret" 0
      60).2.1 5 (by decide),
   (jwt_roundtrip (fun s p => s.length + p.exp) "u1" "server-secret" 0
      86400).2.2 (by decide)⟩

/-- C7: each `createOTP` call appends exactly one fresh ledger row —
`isUsed = false`, the given email, expiry `now + 10*60` — returns the
plaintext equal to the stored code, leaves every prior row untouched,
and the code is the decimal numeral of `100000 + k ∈ [100000, 999999]`
(a 6-digit value); the map from the random draw to that value is a
bijection of `[0, 900000)` onto the 6-digit range, so a uniform draw
yields a uniform code.  (The draw itself comes from `Math.random()`, a
non-cryptographic PRNG — see the claim record.) -/
theorem createOTP_ledger_append (rows : List OtpRow) (email : String)
    (userId : Option String) (k : Nat) (otpId : String) (now : Nat)
    (hk : k < 900000) :
    (createOTP rows email userId k otpId now).2.length = rows.length + 1 ∧
    (createOTP rows email userId k otpId now).2.take rows.length = rows ∧
    (createOTP rows email userId k otpId now).2.getLast? = some
      { id := otpId, userId := userId, email := email,
        code := generateOTP k, expiresAt := now + 10 * 60,
        isUsed := false, createdAt := now } ∧
    (createOTP rows email userId k otpId now).1 = generateOTP k ∧
    (∃ v, generateOTP k = Nat.repr v ∧ 100000 ≤ v ∧ v ≤ 999999) ∧
    Set.BijOn (fun j => 100000 + j) (Set.Iio 900000)
      (Set.Icc 100000 999999) := by
  refine ⟨by simp [createOTP], ?_, ?_, rfl,
    ⟨100000 + k, rfl, by omega, by omega⟩, ?_, ?_, ?_⟩
  · simp [createOTP, List.take_left]
  · simp [createOTP]
  · intro j hj
    simp only [Set.mem_Iio] at hj
    simp only [Set.mem_Icc]
    omega
  · intro a _ b _ hab
    have h2 : 100000 + a = 100000 + b := hab
    omega
  · intro v hv
    simp only [Set.mem_Icc] at hv
    exact ⟨v - 100000, by simp only [Set.mem_Iio]; omega,
      by show 100000 + (v - 100000) = v; omega⟩

/-- Witness for C7's theorem: the concrete draw `382913` yields the
plaintext code `"482913"`. -/
theorem createOTP_ledger_append_witness :
    (createOTP [] "alice@example.com" none 382913 "o1" 1000).1
      = "482913" := by
  have h := createOTP_ledger_append [] "alice@example.com" none 382913
    "o1" 1000 (by decide)
  rw [h.2.2.2.1]
  decide

/-- C8 counterexample: a user is stored under the case-normalized email
`"alice@x.com"`, yet `getOrCreateUser` called with `"ALICE@x.com"` —
whose case-normalization equals the stored email — does not return the
stored id: the exact-equality lookup misses, and a second user row is
inserted, refuting both "returns that user's id and changes no state"
and "at most one user row for emails differing only in letter case". -/
theorem getOrCreateUser_case_sensitive_cex :
    String.mk ("ALICE@x.com".data.map Char.toLower) = "alice@x.com" ∧
    getOrCreateUser
      [{ id := "u1", email := "alice@x.com", emailVerified := true,
         name := none, provider := "email" }] "ALICE@x.com" none "u2"
      = ("u2",
         [{ id := "u1", email := "alice@x.com", emailVerified := true,
            name := none, provider := "email" },
          { id := "u2", email := "ALICE@x.com", emailVerified := false,
            name := none, provider := "email" }]) := by
  decide

/-- C8 amended: `getOrCreateUser` matches the stored email by exact
string equality (no case normalization).  If some row carries exactly
the requested email, the first such row's id is returned and nothing
changes; otherwise exactly one user row is appended with
`emailVerified = false`, `name = null`, `provider = 'email'` and the
fresh id is returned; and a second sequential call with the *identical*
email string returns the same id and changes nothing. -/
theorem getOrCreateUser_exact_email (rows : List UserRow) (email : String)
    (name name2 : Option String) (uuid1 uuid2 : String) :
    (∀ u, (rows.filter (fun x => x.email == email)).head? = some u →
      getOrCreateUser rows email name uuid1 = (u.id, rows)) ∧
    ((∀ u ∈ rows, u.email ≠ email) →
      getOrCreateUser rows email name uuid1
        = (uuid1, rows ++
            [{ id := uuid1, email := email, emailVerified := false,
               name := if name = some "" then none else name,
               provider := "email" }])) ∧
    getOrCreateUser (getOrCreateUser rows email name uuid1).2 email name2
        uuid2
      = ((getOrCreateUser rows email name uuid1).1,
         (getOrCreateUser rows email name uuid1).2) := by
  refine ⟨fun u hu => ?_, fun h => ?_, ?_⟩
  · unfold getOrCreateUser
    rw [hu]
  · have hf : rows.filter (fun x => x.email == email) = [] := by
      rw [List.filter_eq_nil_iff]
      intro u hu
      simpa using h u hu
    unfold getOrCreateUser
    rw [hf]
    rfl
  · unfold getOrCreateUser
    cases hf : (rows.filter (fun x => x.email == email)).head? with
    | some u => simp [hf]
    | none =>
      have hnil : rows.filter (fun x => x.email == email) = [] :=
        List.head?_eq_none_iff.mp hf
      simp [List.filter_append, hnil]

/-- Witness for C8's amended theorem: creating a user in an empty store
inserts exactly the expected row and returns the fresh id. -/
theorem getOrCreateUser_exact_email_witness :
    getOrCreateUser [] "alice@x.com" none "u1"
      = ("u1",
         [{ id := "u1", email := "alice@x.com", emailVerified := false,
            name := none, provider := "email" }]) :=
  (getOrCreateUser_exact_email [] "alice@x.com" none none "u1" "u2").2.1
    (by simp)

/-- C9 counterexample: two requests failing OTP verification for
different reasons get different response bodies — no code on file yields
`message = "OTP not found"` while a wrong code yields
`message = "Invalid OTP"` — so the failure kind is distinguishable,
refuting "the failure response body is the same generic message". -/
theorem verify_otp_response_distinguishes_cex :
    (verifyOtpHandler (fun _ _ => 0) { otps := [], users := [] }
        "bob@example.com" "123456" 50 "u1" "server-secret").1
      = .failureResp 400 "OTP not found" ∧
    (verifyOtpHandler (fun _ _ => 0)
        { otps := [{ id := "o1", userId := none,
                     email := "bob@example.com", code := "111111",
                     expiresAt := 999, isUsed := false, createdAt := 10 }],
          users := [] }
        "bob@example.com" "222222" 50 "u1" "server-secret").1
      = .failureResp 400 "Invalid OTP" ∧
    ("OTP not found" : String) ≠ "Invalid OTP" := by
  decide

/-- C9 amended: the endpoint returns 400 with `message` equal to the
exact `verifyOTP` error string (`OTP not found` / `Invalid OTP` /
`OTP already used` / `OTP expired`), so each §4.3 failure kind is
surfaced verbatim to the caller rather than as one generic message. -/
theorem verify_otp_endpoint_echoes_error (mac : String → Payload → Nat)
    (db : Db) (email code : String) (now : Nat) (uuid secret err : String)
    (hf : (verifyOTP db.otps email code now).1 = .failure err)
    (hne : err ≠ "") :
    (verifyOtpHandler mac db email code now uuid secret).1
      = .failureResp 400 err := by
  have h1 : verifyOTP db.otps email code now
      = (.failure err, (verifyOTP db.otps email code now).2) := by
    rw [← hf]
  unfold verifyOtpHandler
  rw [h1]
  simp [hne]

/-- Witness for C9's amended theorem: an already-used code surfaces the
exact `OTP already used` message. -/
theorem verify_otp_endpoint_echoes_error_witness :
    (verifyOtpHandler (fun _ _ => 0)
        { otps := [{ id := "o1", userId := none,
                     email := "bob@example.com", code := "111111",
                     expiresAt := 999, isUsed := true, createdAt := 10 }],
          users := [] }
        "bob@example.com" "111111" 50 "u1" "server-secret").1
      = .failureResp 400 "OTP already used" :=
  verify_otp_endpoint_echoes_error (fun _ _ => 0)
    { otps := [{ id := "o1", userId := none, email := "bob@example.com",
                 code := "111111", expiresAt := 999, isUsed := true,
                 createdAt := 10 }],
      users := [] }
    "bob@example.com" "111111" 50 "u1" "server-secret" "OTP already used"
    (by decide) (by decide)

/-- C10: `generateJWT` stamps `type = 'access'` into every token, yet
neither `verifyJWT` nor the `hono/factory` `jwtAuth` middleware reads the
`type` claim: two tokens correctly signed over claim sets differing only
in `type` verify identically (for `verifyJWT` and for the middleware),
and any correctly signed token with a non-empty `sub` and an unexpired
`exp` is accepted whatever its `type` — including its absence. -/
theorem token_type_never_inspected (mac : String → Payload → Nat)
    (secret : String) (now : Nat) (p : Payload) (ty1 ty2 : Option String)
    (u : String) :
    (generateJWT mac u secret now).payload.type = some "access" ∧
    verifyJWTTok mac (signToken mac secret { p with type := ty1 }) secret
        now
      = verifyJWTTok mac (signToken mac secret { p with type := ty2 })
          secret now ∧
    (∀ s, p.sub = some s → s ≠ "" → now < p.exp →
      verifyJWTTok mac (signToken mac secret p) secret now = .ok s) ∧
    (∀ decode1 decode2 : String → Option Token, ∀ h : String,
      "Bearer ".data.isPrefixOf h.data = true →
      decode1 (String.mk (h.data.drop 7))
        = some (signToken mac secret { p with type := ty1 }) →
      decode2 (String.mk (h.data.drop 7))
        = some (signToken mac secret { p with type := ty2 }) →
      jwtAuthJose mac decode1 secret (some h) now
        = jwtAuthJose mac decode2 secret (some h) now) := by
  refine ⟨rfl, ?_, fun s hs hne hexp => ?_, ?_⟩
  · simp [verifyJWTTok, signToken]
  · simp [verifyJWTTok, signToken, hs, hne, hexp]
  · intro decode1 decode2 h hpre hd1 hd2
    simp [jwtAuthJose, hpre, hd1, hd2, signToken]

/-- Witness for C10's theorem: a correctly signed token with *no* `type`
claim, a non-empty subject and an unexpired expiry is accepted. -/
theorem token_type_never_inspected_witness :
    verifyJWTTok (fun _ _ => 9)
      (signToken (fun _ _ => 9) "server-secret"
        { sub := some "u1", type := none, iat := 0, exp := 100,
          email := none, name := none })
      "server-secret" 50
      = .ok "u1" :=
  (token_type_never_inspected (fun _ _ => 9) "server-secret" 50
      { sub := some "u1", type := none, iat := 0, exp := 100,
        email := none, name := none }
      none none "u1").2.2.1 "u1" rfl (by decide) (by decide)
